import Mathlib

/-!
Verification of the NEON requantization kernel
`NEGEMMLowpQuantizeDownInt32ToUint8ScaleByFixedPointKernel`
(`src/src/core/NEON/kernels/NEGEMMLowpQuantizeDownInt32ToUint8ScaleByFixedPointKernel.cpp`).

The kernel converts 32-bit signed accumulators to 8-bit unsigned quantized
values via a fixed-point multiply-high, a rounding right shift, an offset
addition, an optional bounded clamp and a saturating narrow.  The scalar and
16-lane helpers named `finalize_quantization` are declared in `NEAsymm.h`,
which is not part of the shown sources; they are modelled here from the
specification's wording.  Everything else (loop structure, path selection,
validation, window configuration, dispatch) is translated from the `.cpp`
file.
-/

namespace ACLQuant

/-- Wrap an unbounded integer into the two's-complement int32 range,
modelling C `int32_t` arithmetic. -/
def wrap32 (x : Int) : Int := (x + 2 ^ 31) % 2 ^ 32 - 2 ^ 31

/-- Modelled from the spec: the rounding fixed-point multiply-high used by
`finalize_quantization` (declared in `NEAsymm.h`, absent from src/): the
product of two 32-bit signed values, taking the high 32 bits with
round-to-nearest (half rounds up), result kept in int32. -/
def fixed_point_mul_high (a b : Int) : Int :=
  wrap32 ((a * b + 2 ^ 31).fdiv (2 ^ 32))

/-- Modelled from the spec: arithmetic shift right by `s` with
round-to-nearest on the shifted-out bits (half rounds up), in int32. -/
def rounding_divide_by_pow2 (x : Int) (s : Nat) : Int :=
  wrap32 ((x + 2 ^ s / 2).fdiv (2 ^ s))

/-- Quantization parameters stored by `configure` in the kernel object
(fields `_result_fixedpoint_multiplier`, `_result_shift`,
`_result_offset_after_shift`, `_min`, `_max`).  The shift is nonnegative in
every use of this kernel, so it is carried as a `Nat`. -/
structure QuantParams where
  result_fixedpoint_multiplier : Int
  result_shift : Nat
  result_offset_after_shift : Int
  min : Int
  max : Int
  deriving DecidableEq, Repr

/-- Modelled from the spec: the scalar `finalize_quantization` helper
(declared in `NEAsymm.h`, absent from src/).  Multiply by the fixed-point
multiplier with a rounding multiply-high, rounding-shift right, add the
offset, clamp into `[min, max]` when the bounded-clamp policy is active,
then saturate-narrow into `[0, 255]`; intermediate arithmetic in int32. -/
def finalize_quantization (bounded : Bool) (v mult : Int) (shift : Nat)
    (offset mn mx : Int) : Int :=
  let a := rounding_divide_by_pow2 (fixed_point_mul_high v mult) shift
  let b := wrap32 (a + offset)
  let c := if bounded then max mn (min mx b) else b
  max 0 (min 255 c)

/-- The call to `finalize_quantization` exactly as the kernel's scalar
remainder loop issues it, with the stored configuration fields
(lines 161 and 193 of the `.cpp` file). -/
def quantizeScalar (bounded : Bool) (p : QuantParams) (v : Int) : Int :=
  finalize_quantization bounded v p.result_fixedpoint_multiplier
    p.result_shift p.result_offset_after_shift p.min p.max

/-- The clamp-policy selection performed once by `configure` (line 227):
`is_bounded_relu = ((min != max) && !(min == 0 && max == 255))`. -/
def is_bounded_relu (mn mx : Int) : Bool :=
  decide (mn ≠ mx ∧ ¬(mn = 0 ∧ mx = 255))

/-- The scalar quantization rule in the single-formula form the
specification states it, used to compare against the kernel pipeline. -/
def scalar_quantization_rule (bounded : Bool) (mult : Int) (shift : Nat)
    (offset mn mx v : Int) : Int :=
  max 0 (min 255
    (if bounded then
      max mn (min mx
        (wrap32 (wrap32 ((wrap32 ((v * mult + 2 ^ 31).fdiv (2 ^ 32))
          + 2 ^ shift / 2).fdiv (2 ^ shift)) + offset)))
    else
      wrap32 (wrap32 ((wrap32 ((v * mult + 2 ^ 31).fdiv (2 ^ 32))
        + 2 ^ shift / 2).fdiv (2 ^ shift)) + offset)))

theorem finalize_eq_rule (bounded : Bool) (v mult : Int) (shift : Nat)
    (offset mn mx : Int) :
    finalize_quantization bounded v mult shift offset mn mx =
      scalar_quantization_rule bounded mult shift offset mn mx v := by
  cases bounded <;>
    simp [finalize_quantization, scalar_quantization_rule,
      rounding_divide_by_pow2, fixed_point_mul_high]

/-- Range helper for C2: the saturating narrow keeps values in range. -/
theorem finalize_range (bounded : Bool) (v mult : Int) (shift : Nat)
    (offset mn mx : Int) (h0 : 0 ≤ mn) (h1 : mn ≤ mx) (h2 : mx ≤ 255) :
    (bounded = true →
      mn ≤ finalize_quantization bounded v mult shift offset mn mx ∧
      finalize_quantization bounded v mult shift offset mn mx ≤ mx) ∧
    (bounded = false →
      0 ≤ finalize_quantization bounded v mult shift offset mn mx ∧
      finalize_quantization bounded v mult shift offset mn mx ≤ 255) := by
  unfold finalize_quantization
  cases bounded <;> simp <;> omega

/-- Modelled from the spec: the 16-lane vector form of `finalize_quantization`
(declared in `NEAsymm.h`, absent from src/); the batched path applies the
scalar rule to each of the 16 lanes. -/
def finalize_quantization16 (bounded : Bool) (p : QuantParams)
    (vs : List Int) : List Int :=
  vs.map (quantizeScalar bounded p)

/-- The scalar remainder loop of `run` (lines 152-162 and 187-194):
`for(; x < window_end_x; ++x)` processing one element at a time, here as
structural recursion on the remaining count `n = window_end_x - x`. -/
def leftoverLoop (bounded : Bool) (p : QuantParams) (g : Nat → Int)
    (x : Nat) : Nat → List Int
  | 0 => []
  | n + 1 => quantizeScalar bounded p (g x) :: leftoverLoop bounded p g (x + 1) n

/-- The innermost-dimension loop of `run` (lines 119-162): runs of 16
contiguous elements (`x <= window_end_x - 16`, i.e. `16 ≤ n` for the
remaining count `n`) are handed to the 16-lane `finalize_quantization`, the
trailing elements go through the scalar remainder loop.  The 16-element
block covers indices `x .. x+15` (loaded by the source as four groups of
four int32 lanes). -/
def innerLoop (bounded : Bool) (p : QuantParams) (g : Nat → Int)
    (x n : Nat) : List Int :=
  if h : 16 ≤ n then
    finalize_quantization16 bounded p ((List.range' x 16).map g) ++
      innerLoop bounded p g (x + 16) (n - 16)
  else
    leftoverLoop bounded p g x n
termination_by n
decreasing_by omega

/-- The windowed execution of `run<is_bounded_relu>` over the collapsed
outer dimensions: each visited outer coordinate (a row) runs the inner
loop; with a bias the bias iterator is pinned to the origin, so the bias is
indexed by the innermost coordinate `x` alone (lines 110-164), and the
bias addition wraps in int32 before quantization; without a bias the input
value goes to `finalize_quantization` directly (lines 166-197). -/
def runKernelWindow (bounded : Bool) (p : QuantParams)
    (input : Nat → Nat → Int) (biasOpt : Option (Nat → Int))
    (numRows startX endX : Nat) : List (List Int) :=
  match biasOpt with
  | some b =>
      (List.range numRows).map fun r =>
        innerLoop bounded p (fun x => wrap32 (input r x + b x)) startX
          (endX - startX)
  | none =>
      (List.range numRows).map fun r =>
        innerLoop bounded p (input r) startX (endX - startX)

/-- The scheduler-facing thread information argument of
`run(const Window&, const ThreadInfo&)`. -/
structure ThreadInfo where
  thread_id : Int
  num_threads : Nat
  cpu_id : Nat
  deriving DecidableEq, Repr

/-- Top-level `run(window, info)` (lines 240-247): `info` is explicitly
unused (`ARM_COMPUTE_UNUSED(info)`); the call dispatches through the
function reference `_func` that `configure` selected from the clamp
policy (line 228). -/
def kernelRun (p : QuantParams) (input : Nat → Nat → Int)
    (biasOpt : Option (Nat → Int)) (numRows startX endX : Nat)
    (info : ThreadInfo) : List (List Int) :=
  let _ := info
  runKernelWindow (is_bounded_relu p.min p.max) p input biasOpt numRows
    startX endX

/-- One stored output byte of a run result, at outer row `r` and position
`c` within the visited inner range. -/
def outputByte (out : List (List Int)) (r c : Nat) : Int :=
  (out.getD r []).getD c 0

/-- The value each visited element carries into `finalize_quantization`:
the input value after the optional int32 bias addition. -/
def biasedValue (input : Nat → Nat → Int) (biasOpt : Option (Nat → Int))
    (r c : Nat) : Int :=
  match biasOpt with
  | some b => wrap32 (input r c + b c)
  | none => input r c

theorem leftoverLoop_eq (bounded : Bool) (p : QuantParams) (g : Nat → Int) :
    ∀ (n x : Nat), leftoverLoop bounded p g x n =
      (List.range' x n).map fun i => quantizeScalar bounded p (g i) := by
  intro n
  induction n with
  | zero => intro x; simp [leftoverLoop]
  | succ m ih => intro x; simp [leftoverLoop, List.range'_succ, ih]

theorem innerLoop_eq (bounded : Bool) (p : QuantParams) (g : Nat → Int) :
    ∀ (n x : Nat), innerLoop bounded p g x n =
      (List.range' x n).map fun i => quantizeScalar bounded p (g i) := by
  intro n
  induction n using Nat.strong_induction_on with
  | _ n ih =>
    intro x
    rw [innerLoop]
    by_cases h : 16 ≤ n
    · have h16 : n - 16 < n := by omega
      have hsplit : List.range' x 16 ++ List.range' (x + 16) (n - 16) =
          List.range' x n := by
        have := List.range'_append x 16 (n - 16) 1
        simpa [Nat.add_comm, Nat.add_sub_cancel' h] using this.symm ▸ rfl
      simp only [h, dite_true, ih (n - 16) h16, finalize_quantization16,
        List.map_map]
      rw [← hsplit, List.map_append]
      rfl
    · simp only [h, dite_false, leftoverLoop_eq]

theorem getD_map_range {α : Type} (d : α) (f : Nat → α) (n r : Nat)
    (hr : r < n) : ((List.range n).map f).getD r d = f r := by
  rw [List.getD_eq_getElem?_getD, List.getElem?_map, List.getElem?_range hr]
  rfl

theorem getD_map_range' {α : Type} (d : α) (f : Nat → α) (x n c : Nat)
    (h1 : x ≤ c) (h2 : c < x + n) :
    ((List.range' x n).map f).getD (c - x) d = f c := by
  have hc : c - x < n := by omega
  rw [List.getD_eq_getElem?_getD, List.getElem?_map,
    List.getElem?_range' x 1 hc]
  have hx : x + (c - x) = c := by omega
  simp [hx]

/-- Every byte that `run` stores is the scalar quantization of the visited
element after the optional bias addition, with the clamp policy chosen by
`configure`. -/
theorem kernelRun_byte (p : QuantParams) (input : Nat → Nat → Int)
    (biasOpt : Option (Nat → Int)) (numRows startX endX : Nat)
    (info : ThreadInfo) (r c : Nat) (hr : r < numRows) (hc1 : startX ≤ c)
    (hc2 : c < endX) :
    outputByte (kernelRun p input biasOpt numRows startX endX info) r
        (c - startX) =
      quantizeScalar (is_bounded_relu p.min p.max) p
        (biasedValue input biasOpt r c) := by
  have hcr : c < startX + (endX - startX) := by omega
  cases biasOpt with
  | some b =>
      simp only [kernelRun, runKernelWindow, outputByte, biasedValue]
      rw [getD_map_range _ _ numRows r hr, innerLoop_eq,
        getD_map_range' _ _ startX (endX - startX) c hc1 hcr]
  | none =>
      simp only [kernelRun, runKernelWindow, outputByte, biasedValue]
      rw [getD_map_range _ _ numRows r hr, innerLoop_eq,
        getD_map_range' _ _ startX (endX - startX) c hc1 hcr]

/-- Element data types relevant to this kernel's checks. -/
inductive DataType where
  | UNKNOWN
  | S32
  | QASYMM8
  | U8
  | F32
  deriving DecidableEq, Repr

/-- A valid region of a tensor: an anchor coordinate and a shape. -/
structure ValidRegion where
  anchor : List Nat
  shape : List Nat
  deriving DecidableEq, Repr

/-- The descriptor state of a tensor as this kernel reads and writes it:
element data type, number of channels, the per-dimension extents and the
valid region.  An uninitialized descriptor has an empty shape, hence total
size zero. -/
structure TensorInfoModel where
  data_type : DataType
  num_channels : Nat
  tensor_shape : List Nat
  valid_region : ValidRegion
  deriving DecidableEq, Repr

/-- Model of `ITensorInfo::num_dimensions`. -/
def num_dimensions (t : TensorInfoModel) : Nat := t.tensor_shape.length

/-- Model of `ITensorInfo::dimension(0)`: the innermost extent. -/
def dimension0 (t : TensorInfoModel) : Nat := t.tensor_shape.headD 0

/-- Model of `ITensorInfo::total_size`: zero exactly for an uninitialized (empty)
descriptor; otherwise the element count (the element size factor is
irrelevant to the zero test). -/
def total_size (t : TensorInfoModel) : Nat :=
  if t.tensor_shape = [] then 0 else t.tensor_shape.prod

/-- The bias checks of `validate_arguments` (lines 53-58): mismatching
data types, more than one dimension, or an innermost extent differing from
the input's. -/
def biasCheckFails (input : TensorInfoModel) :
    Option TensorInfoModel → Bool
  | none => false
  | some bi =>
      decide (input.data_type ≠ bi.data_type) ||
      decide (1 < num_dimensions bi) ||
      decide (dimension0 input ≠ dimension0 bi)

/-- The output checks of `validate_arguments` (lines 60-64), applied only
to a non-empty output: wrong data type or channel count, or a shape
differing from the input's. -/
def outputCheckFails (input output : TensorInfoModel) : Bool :=
  decide (total_size output ≠ 0) &&
    (decide (¬(output.data_type = DataType.QASYMM8 ∧
        output.num_channels = 1)) ||
     decide (output.tensor_shape ≠ input.tensor_shape))

/-- Model of `validate_arguments` (lines 46-67), `true` meaning the returned
`Status` is the empty success value.  The checks run in source order:
input type/channel, `max > 255`, `min < 0 || min > max`, the bias checks,
the non-empty-output checks. -/
def validate_arguments (input : TensorInfoModel)
    (bias : Option TensorInfoModel) (output : TensorInfoModel)
    (mn mx : Int) : Bool :=
  if ¬(input.data_type = DataType.S32 ∧ input.num_channels = 1) then false
  else if 255 < mx then false
  else if mn < 0 ∨ mx < mn then false
  else if biasCheckFails input bias then false
  else if outputCheckFails input output then false
  else true

/-- Model of `calculate_max_window(*input, Steps())` (line 75): per dimension the
range `[0, extent)` with unit step. -/
def calculate_max_window (input : TensorInfoModel) :
    List (Int × Int × Int) :=
  input.tensor_shape.map fun d => ((0 : Int), (d : Int), (1 : Int))

/-- Model of `auto_init_if_empty` (line 72): initialize the descriptor from the
template when its total size is zero, otherwise leave it unchanged. -/
def auto_init_if_empty (output template : TensorInfoModel) :
    TensorInfoModel :=
  if total_size output = 0 then template else output

/-- Model of `validate_and_configure_window` (lines 69-83): auto-initialize the
output from the input's clone with data type set to QASYMM8, compute the
maximal window, set the output's valid region to its full shape anchored
at the origin; the returned status is always success. -/
def validate_and_configure_window (input output : TensorInfoModel) :
    Bool × TensorInfoModel × List (Int × Int × Int) :=
  let out1 := auto_init_if_empty output
    { input with data_type := DataType.QASYMM8 }
  let win := calculate_max_window input
  let out2 := { out1 with valid_region :=
    ⟨List.replicate (num_dimensions out1) 0, out1.tensor_shape⟩ }
  (true, out2, win)

/-- The static `validate` (lines 231-238): run `validate_arguments` on the
given descriptors, then run `validate_and_configure_window` on clones of
input and output, discarding the configured copies and keeping only the
status.  The returned triple carries the descriptors as the caller still
sees them after the call. -/
def kernelValidate (input : TensorInfoModel) (bias : Option TensorInfoModel)
    (output : TensorInfoModel) (mn mx : Int) :
    Bool × TensorInfoModel × Option TensorInfoModel × TensorInfoModel :=
  if validate_arguments input bias output mn mx then
    let cfg := validate_and_configure_window input output
    (cfg.1, input, bias, output)
  else
    (false, input, bias, output)

/-- Helper: `wrap32` is the identity on values already in int32 range. -/
theorem wrap32_eq_self (x : Int) (h1 : -(2 ^ 31) ≤ x) (h2 : x < 2 ^ 31) :
    wrap32 x = x := by
  unfold wrap32
  omega

/-- C1: for every configured kernel and every visited element (after the
optional bias addition) the stored output byte equals the scalar
quantization rule — rounding multiply-high by the fixed-point multiplier,
rounding arithmetic shift right, offset addition, bounded clamp when the
policy is active, saturating narrow into `[0,255]`, all in int32. -/
theorem C1_stored_byte_is_scalar_rule (p : QuantParams)
    (input : Nat → Nat → Int) (biasOpt : Option (Nat → Int))
    (numRows startX endX : Nat) (info : ThreadInfo) (r c : Nat)
    (hr : r < numRows) (hc1 : startX ≤ c) (hc2 : c < endX) :
    outputByte (kernelRun p input biasOpt numRows startX endX info) r
        (c - startX) =
      scalar_quantization_rule (is_bounded_relu p.min p.max)
        p.result_fixedpoint_multiplier p.result_shift
        p.result_offset_after_shift p.min p.max
        (biasedValue input biasOpt r c) := by
  rw [kernelRun_byte p input biasOpt numRows startX endX info r c hr hc1 hc2,
    quantizeScalar, finalize_eq_rule]

theorem C1_witness :
    0 < 1 ∧ 0 ≤ 1 ∧ 1 < 2 ∧
    outputByte (kernelRun ⟨2 ^ 30, 30, 128, 0, 255⟩ (fun _ x => (x : Int))
        none 1 0 2 ⟨0, 1, 0⟩) 0 (1 - 0) =
      scalar_quantization_rule (is_bounded_relu 0 255) (2 ^ 30) 30 128 0 255
        (biasedValue (fun _ x => (x : Int)) none 0 1) :=
  ⟨by decide, by decide, by decide,
    C1_stored_byte_is_scalar_rule ⟨2 ^ 30, 30, 128, 0, 255⟩
      (fun _ x => (x : Int)) none 1 0 2 ⟨0, 1, 0⟩ 0 1 (by decide) (by decide)
      (by decide)⟩

/-- C2: for valid parameters with `0 ≤ min ≤ max ≤ 255` and every int32
input, the per-element result lies in `[min, max]` on the bounded-clamp
path and in `[0, 255]` otherwise. -/
theorem C2_result_in_range (mult : Int) (shift : Nat) (offset mn mx v : Int)
    (h0 : 0 ≤ mn) (h1 : mn ≤ mx) (h2 : mx ≤ 255)
    (hv1 : -(2 ^ 31) ≤ v) (hv2 : v < 2 ^ 31) :
    (mn ≤ finalize_quantization true v mult shift offset mn mx ∧
     finalize_quantization true v mult shift offset mn mx ≤ mx) ∧
    (0 ≤ finalize_quantization false v mult shift offset mn mx ∧
     finalize_quantization false v mult shift offset mn mx ≤ 255) :=
  ⟨(finalize_range true v mult shift offset mn mx h0 h1 h2).1 rfl,
   (finalize_range false v mult shift offset mn mx h0 h1 h2).2 rfl⟩

theorem C2_witness :
    (0 : Int) ≤ 10 ∧ (10 : Int) ≤ 20 ∧ (20 : Int) ≤ 255 ∧
    -(2 ^ 31) ≤ (5 : Int) ∧ (5 : Int) < 2 ^ 31 ∧
    ((10 ≤ finalize_quantization true 5 (2 ^ 30) 30 0 10 20 ∧
      finalize_quantization true 5 (2 ^ 30) 30 0 10 20 ≤ 20) ∧
     (0 ≤ finalize_quantization false 5 (2 ^ 30) 30 0 10 20 ∧
      finalize_quantization false 5 (2 ^ 30) 30 0 10 20 ≤ 255)) :=
  ⟨by decide, by decide, by decide, by decide, by decide,
    C2_result_in_range (2 ^ 30) 30 0 10 20 5 (by decide) (by decide)
      (by decide) (by decide) (by decide)⟩

/-- C3 counterexample: with `min = max = 100` the kernel selects the
unclamped path, so the output of `run` on input `0` with multiplier
`2^30`, shift `30`, offset `128` is `128`, not the single value `100`
claimed for a degenerate clamp. -/
theorem C3_counterexample :
    outputByte (kernelRun ⟨2 ^ 30, 30, 128, 100, 100⟩ (fun _ _ => 0) none
        1 0 1 ⟨0, 1, 0⟩) 0 0 ≠ 100 := by
  have h := kernelRun_byte ⟨2 ^ 30, 30, 128, 100, 100⟩ (fun _ _ => 0) none
    1 0 1 ⟨0, 1, 0⟩ 0 0 (by decide) (by decide) (by decide)
  simpa using h ▸ (by decide :
    quantizeScalar (is_bounded_relu (100 : Int) 100)
      ⟨2 ^ 30, 30, 128, 100, 100⟩
      (biasedValue (fun _ _ => 0) none 0 0) ≠ 100)

/-- C3 amended: when the kernel is configured with `min = max` (within
`0 ≤ min ≤ 255`), `configure` selects the unclamped path, so every output
follows the plain `[0,255]`-saturated quantization rule rather than being
forced to `min`; only the bounded-clamp rule itself, had it been selected,
would force every element to `min`. -/
theorem C3_amended_minmax_unclamped (p : QuantParams) (v : Int)
    (hmm : p.min = p.max) (h0 : 0 ≤ p.min) (h255 : p.max ≤ 255) :
    is_bounded_relu p.min p.max = false ∧
    quantizeScalar (is_bounded_relu p.min p.max) p v =
      quantizeScalar false p v ∧
    quantizeScalar true p v = p.min := by
  have hb : is_bounded_relu p.min p.max = false := by
    simp [is_bounded_relu, hmm]
  refine ⟨hb, by rw [hb], ?_⟩
  unfold quantizeScalar finalize_quantization
  simp only [if_pos]
  omega

theorem C3_witness :
    (100 : Int) = 100 ∧ (0 : Int) ≤ 100 ∧ (100 : Int) ≤ 255 ∧
    (is_bounded_relu (100 : Int) 100 = false ∧
     quantizeScalar (is_bounded_relu (100 : Int) 100)
        ⟨2 ^ 30, 30, 128, 100, 100⟩ 0 =
       quantizeScalar false ⟨2 ^ 30, 30, 128, 100, 100⟩ 0 ∧
     quantizeScalar true ⟨2 ^ 30, 30, 128, 100, 100⟩ 0 = 100) :=
  ⟨rfl, by decide, by decide,
    C3_amended_minmax_unclamped ⟨2 ^ 30, 30, 128, 100, 100⟩ 0 rfl
      (by decide) (by decide)⟩

/-- C4: the bounded-clamp path is selected iff `min ≠ max` and not
`(min = 0 ∧ max = 255)`; and with `min = 0, max = 255` the clamped rule
coincides with the unclamped rule on every input. -/
theorem C4_clamp_policy_selection (mn mx mult offset : Int) (shift : Nat) :
    (is_bounded_relu mn mx = true ↔ (mn ≠ mx ∧ ¬(mn = 0 ∧ mx = 255))) ∧
    (∀ v : Int, finalize_quantization true v mult shift offset 0 255 =
      finalize_quantization false v mult shift offset 0 255) := by
  refine ⟨by simp [is_bounded_relu]; tauto, fun v => ?_⟩
  unfold finalize_quantization
  simp only [Bool.false_eq_true, if_true, if_false]
  omega

/-- C5: for every row length and every input vector, the 16-wide batch
loop followed by the scalar remainder loop yields exactly the bytes of
applying the scalar quantization rule to every element one at a time. -/
theorem C5_batch_refines_scalar (bounded : Bool) (p : QuantParams)
    (g : Nat → Int) (x n : Nat) :
    innerLoop bounded p g x n =
      (List.range' x n).map fun i => quantizeScalar bounded p (g i) :=
  innerLoop_eq bounded p g n x

/-- C6: with a bias tensor present, the bias is indexed by the innermost
coordinate alone and broadcast over every outer coordinate: the stored
byte at `(r, c)` is the quantization of `input r c + bias c` (whenever the
sum stays in int32, matching the kernel's int32 addition). -/
theorem C6_bias_broadcast (p : QuantParams) (input : Nat → Nat → Int)
    (b : Nat → Int) (numRows startX endX : Nat) (info : ThreadInfo)
    (r c : Nat) (hr : r < numRows) (hc1 : startX ≤ c) (hc2 : c < endX)
    (hs1 : -(2 ^ 31) ≤ input r c + b c) (hs2 : input r c + b c < 2 ^ 31) :
    outputByte (kernelRun p input (some b) numRows startX endX info) r
        (c - startX) =
      quantizeScalar (is_bounded_relu p.min p.max) p (input r c + b c) := by
  rw [kernelRun_byte p input (some b) numRows startX endX info r c hr hc1
    hc2]
  simp only [biasedValue]
  rw [wrap32_eq_self _ hs1 hs2]

theorem C6_witness :
    0 < 2 ∧ 0 ≤ 1 ∧ 1 < 3 ∧
    -(2 ^ 31) ≤ ((fun (_ : Nat) (x : Nat) => (x : Int)) 1 1 +
      (fun (x : Nat) => (x : Int) + 7) 1) ∧
    ((fun (_ : Nat) (x : Nat) => (x : Int)) 1 1 +
      (fun (x : Nat) => (x : Int) + 7) 1) < 2 ^ 31 ∧
    outputByte (kernelRun ⟨2 ^ 30, 30, 128, 0, 255⟩
        (fun _ x => (x : Int)) (some fun x => (x : Int) + 7) 2 0 3
        ⟨0, 1, 0⟩) 1 (1 - 0) =
      quantizeScalar (is_bounded_relu 0 255) ⟨2 ^ 30, 30, 128, 0, 255⟩
        ((fun (_ : Nat) (x : Nat) => (x : Int)) 1 1 +
          (fun (x : Nat) => (x : Int) + 7) 1) :=
  ⟨by decide, by decide, by decide, by decide, by decide,
    C6_bias_broadcast ⟨2 ^ 30, 30, 128, 0, 255⟩ (fun _ x => (x : Int))
      (fun x => (x : Int) + 7) 2 0 3 ⟨0, 1, 0⟩ 1 1 (by decide) (by decide)
      (by decide) (by decide) (by decide)⟩

/-- C10: the output of `run(window, info)` does not depend on the
`ThreadInfo` argument, which the dispatcher explicitly ignores. -/
theorem C10_threadinfo_independent (p : QuantParams)
    (input : Nat → Nat → Int) (biasOpt : Option (Nat → Int))
    (numRows startX endX : Nat) (infoA infoB : ThreadInfo) :
    kernelRun p input biasOpt numRows startX endX infoA =
      kernelRun p input biasOpt numRows startX endX infoB := rfl

/-- C7: `validate_arguments` fails exactly when one of the documented
conditions holds — wrong input element type or channel count, `max > 255`,
`min < 0` or `min > max`, a present bias with mismatching data type, more
than one dimension or a differing innermost extent, or a non-empty output
that is not 8-bit unsigned single-channel or whose shape differs from the
input's — and succeeds otherwise. -/
theorem C7_validate_arguments_iff (input : TensorInfoModel)
    (bias : Option TensorInfoModel) (output : TensorInfoModel)
    (mn mx : Int) :
    validate_arguments input bias output mn mx = false ↔
      ((input.data_type ≠ DataType.S32 ∨ input.num_channels ≠ 1) ∨
       255 < mx ∨ mn < 0 ∨ mx < mn ∨
       (∃ bi, bias = some bi ∧
         (input.data_type ≠ bi.data_type ∨ 1 < num_dimensions bi ∨
          dimension0 input ≠ dimension0 bi)) ∨
       (total_size output ≠ 0 ∧
         (¬(output.data_type = DataType.QASYMM8 ∧
            output.num_channels = 1) ∨
          output.tensor_shape ≠ input.tensor_shape))) := by
  cases bias with
  | none =>
      unfold validate_arguments
      split_ifs with h1 h2 h3 h4 h5 <;>
        simp_all [biasCheckFails, outputCheckFails] <;> tauto
  | some bi =>
      unfold validate_arguments
      split_ifs with h1 h2 h3 h4 h5 <;>
        simp_all [biasCheckFails, outputCheckFails] <;> tauto

/-- C8: with an empty output descriptor, the window-configuration step
initializes the output to the input's shape with element type 8-bit
unsigned (QASYMM8), computes the maximal window with unit step per
dimension of the input's full shape, and sets the output's valid region to
its full shape; a pre-initialized output keeps its shape and type. -/
theorem C8_window_configuration (input output : TensorInfoModel) :
    (total_size output = 0 →
      (validate_and_configure_window input output).2.1 =
        { input with
          data_type := DataType.QASYMM8
          valid_region :=
            ⟨List.replicate input.tensor_shape.length 0,
              input.tensor_shape⟩ }) ∧
    (total_size output ≠ 0 →
      (validate_and_configure_window input output).2.1.tensor_shape =
          output.tensor_shape ∧
      (validate_and_configure_window input output).2.1.data_type =
          output.data_type) ∧
    (validate_and_configure_window input output).2.2 =
      input.tensor_shape.map (fun d => ((0 : Int), (d : Int), (1 : Int))) ∧
    (validate_and_configure_window input output).2.1.valid_region =
      ⟨List.replicate
          (validate_and_configure_window input output).2.1.tensor_shape.length
          0,
        (validate_and_configure_window input output).2.1.tensor_shape⟩ := by
  unfold validate_and_configure_window auto_init_if_empty
    calculate_max_window num_dimensions
  by_cases h : total_size output = 0 <;> simp [h]

theorem C8_witness :
    total_size ⟨DataType.UNKNOWN, 1, [], ⟨[], []⟩⟩ = 0 ∧
    (validate_and_configure_window
        ⟨DataType.S32, 1, [4, 2], ⟨[], []⟩⟩
        ⟨DataType.UNKNOWN, 1, [], ⟨[], []⟩⟩).2.1 =
      { data_type := DataType.QASYMM8, num_channels := 1,
        tensor_shape := [4, 2],
        valid_region := ⟨List.replicate ([4, 2] : List Nat).length 0,
          [4, 2]⟩ } :=
  ⟨by decide,
    (C8_window_configuration ⟨DataType.S32, 1, [4, 2], ⟨[], []⟩⟩
      ⟨DataType.UNKNOWN, 1, [], ⟨[], []⟩⟩).1 (by decide)⟩

/-- C9: the static `validate` is side-effect-free: the input, bias and
output descriptors a caller passes are exactly what it sees afterwards —
in particular an empty output descriptor stays empty — because the
window-configuration step inside `validate` runs on clones. -/
theorem C9_validate_side_effect_free (input : TensorInfoModel)
    (bias : Option TensorInfoModel) (output : TensorInfoModel)
    (mn mx : Int) :
    (kernelValidate input bias output mn mx).2 = (input, bias, output) := by
  unfold kernelValidate
  split <;> rfl

end ACLQuant
